import Mathlib

/-!
# SYCL-DNN launch machinery: max-gradient pooling and the Winograd filter transform

Shallow embedding of

* `src/pooling/launch_max_grad_pooling.h`
  (`queue_pooling`, `launch_with_vector_size`, `launch_with_index`, `launch_pooling`),
* `src/conv2d/winograd/queue_filter_transform_impl.h`
  (`round_up`, `get_thread_range`, `queue_filter_transform`).

The device queue is an explicit list of submitted command groups; a launch function takes the
queue and returns the status together with the new queue.  Template parameters that select a
kernel instantiation (`Index`, `VectorWidth`, `UseFastDiv`, `ConvType`, `M`, `N`, `R`, `S`) are
ordinary arguments and are recorded in the submitted kernel functor.  The element type `T` plays
no part in any launch decision and is left out.
-/

namespace sycldnn

/-! ## Shared data model -/

/-- Modelled from the spec: the status codes of `sycldnn/status.h` (absent); the spec lists
OK, InvalidParameters, UnsupportedAlgorithm and IndexExceeded.  The launch code only ever
names `StatusCode::OK` and `StatusCode::IndexExceeded`. -/
inductive StatusCode where
  | OK
  | InvalidParameters
  | UnsupportedAlgorithm
  | IndexExceeded
  deriving DecidableEq, Repr

/-- Completion handle returned by `queue.submit`: `some i` is the event of the command group at
position `i` of the queue, `none` is a default-constructed event (no submission behind it). -/
abbrev Event := Option Nat

/-- The `SNNStatus` result: a completion handle paired with a status code. -/
structure SNNStatus where
  event : Event
  status : StatusCode
  deriving DecidableEq, Repr

/-- Modelled from the spec: `BaseMemObject` (`sycldnn/mem_object.h`, absent) is a non-owning
view over a device buffer plus an element offset and count. -/
structure MemObject where
  buffer : Nat
  offset : Nat
  extent : Nat
  deriving DecidableEq, Repr

/-- Access mode of an accessor bound inside a command group. -/
inductive AccessMode where
  | read
  | write
  deriving DecidableEq, Repr

/-- An accessor: the memory view it was requested from and the mode it was requested with. -/
structure Accessor where
  mem : MemObject
  mode : AccessMode
  deriving DecidableEq, Repr

/-- The call `mem.read_accessor(cgh)`. -/
def MemObject.read_accessor (m : MemObject) : Accessor := ⟨m, AccessMode.read⟩

/-- The call `mem.write_accessor(cgh)`. -/
def MemObject.write_accessor (m : MemObject) : Accessor := ⟨m, AccessMode.write⟩

/-- The two index types a kernel can be instantiated with. -/
inductive IndexType where
  | int32
  | int64
  deriving DecidableEq, Repr

/-- Convolution direction tags (`conv_type::Forward` and so on). -/
inductive ConvType where
  | Forward
  | InputBackprop
  | FilterBackprop
  deriving DecidableEq, Repr

/-- Modelled from the spec: `PoolingParams` (`sycldnn/pooling/params.h`, absent) describes
window size, stride, padding and input/output spatial extents, with batch and channel counts
as for `Conv2DParams`.  Every field is a C++ `int`. -/
structure PoolingParams where
  in_rows : Int
  in_cols : Int
  out_rows : Int
  out_cols : Int
  window_rows : Int
  window_cols : Int
  stride_rows : Int
  stride_cols : Int
  batch : Int
  channels : Int
  pad_rows : Int
  pad_cols : Int
  deriving DecidableEq, Repr

/-- Modelled from the spec: the result of `get_sizes` (`sycldnn/pooling/sizes.h`, absent), of
which the launch reads the member `output_size`, the total number of output elements, into a
`size_t`. -/
structure PoolingSizes where
  output_size : Nat
  deriving DecidableEq, Repr

/-- Modelled from the spec: `Conv2DParams` (`sycldnn/conv2d/params.h`, absent) holds batch size,
input channels, output features, input extents, filter extents, stride, padding, dilation and
output extents.  Every field is a C++ `int`. -/
structure Conv2DParams where
  channels : Int
  features : Int
  batch : Int
  in_rows : Int
  in_cols : Int
  window_rows : Int
  window_cols : Int
  stride_rows : Int
  stride_cols : Int
  out_rows : Int
  out_cols : Int
  pad_rows : Int
  pad_cols : Int
  dilation_rows : Int
  dilation_cols : Int
  deriving DecidableEq, Repr

/-- Modelled from the spec: `TileInfo` (`src/conv2d/winograd/tile_info.h`, absent) stores the
tile row and column counts, as C++ `int`. -/
structure TileInfo where
  rows : Int
  cols : Int
  deriving DecidableEq, Repr

/-- The kernel functor handed to `parallel_for`, with the template arguments it was
instantiated with and the constructor arguments it was built from. -/
inductive KernelFunctor where
  | PoolingOp (index : IndexType) (vectorWidth : Nat) (useFastDiv : Bool)
      (input_data output_data input_backprop output_backprop : Accessor) (pp : PoolingParams)
  | ExtractFilterTiles (index : IndexType) (m n r s : Nat) (convType : ConvType)
      (params : Conv2DParams) (tile_info : TileInfo) (filter transform : Accessor)
  deriving DecidableEq, Repr

/-- One command group as recorded by `queue.submit`: the accessors requested from the handler,
in the order of the requests, and the `parallel_for` calls made on the handler, each a
one-dimensional range with its functor. -/
structure CommandGroup where
  accessors : List Accessor
  regions : List (Nat × KernelFunctor)
  deriving DecidableEq, Repr

/-- The device queue: the command groups submitted so far, oldest first. -/
abbrev Queue := List CommandGroup

/-- The call `queue.submit(...)`: appends the command group and returns its event. -/
def submit (queue : Queue) (cg : CommandGroup) : Event × Queue :=
  (some queue.length, queue ++ [cg])

/-! ## Max-gradient pooling launch (`src/pooling/launch_max_grad_pooling.h`) -/

/-- The value `std::numeric_limits<int32_t>::max()`. -/
def INT32_MAX : Nat := 2147483647

/-- What the pooling launch takes from outside the file: the build flag `SNN_USE_INT64` and the
functions `get_sizes<Direction>`, `can_vectorize<Direction, PoolType>` and
`can_use_fastdiv<Direction>` (headers `sizes.h`, `can_vectorize.h`, `can_fastdiv.h`, absent),
at the one instantiation `EnableIfMaxGradient` admits. -/
structure PoolingBuild where
  snn_use_int64 : Bool
  get_sizes : PoolingParams → PoolingSizes
  can_vectorize : PoolingParams → Nat → Bool
  can_use_fastdiv : PoolingParams → Nat → Bool

/-- Embedding of `queue_pooling<T, Index, PoolType, Direction, VectorWidth, UseFastDiv>`. -/
def queue_pooling (index : IndexType) (vectorWidth : Nat) (useFastDiv : Bool)
    (input_mem output_mem input_backprop_mem output_backprop_mem : MemObject)
    (pp : PoolingParams) (threads : Nat) (queue : Queue) : SNNStatus × Queue :=
  let input_data := input_mem.read_accessor
  let output_data := output_mem.read_accessor
  let input_backprop := input_backprop_mem.read_accessor
  let output_backprop := output_backprop_mem.write_accessor
  let pool := KernelFunctor.PoolingOp index vectorWidth useFastDiv
    input_data output_data input_backprop output_backprop pp
  let submitted := submit queue
    { accessors := [input_data, output_data, input_backprop, output_backprop],
      regions := [(threads, pool)] }
  ({ event := submitted.1, status := StatusCode.OK }, submitted.2)

/-- Embedding of `launch_with_vector_size<T, Index, PoolType, Direction, VectorWidth>`. -/
def launch_with_vector_size (b : PoolingBuild) (index : IndexType) (vectorWidth : Nat)
    (inp_data outp_data inp_backprop outp_backprop : MemObject)
    (pp : PoolingParams) (threads : Nat) (queue : Queue) : SNNStatus × Queue :=
  let threads := threads / vectorWidth
  if b.can_use_fastdiv pp vectorWidth then
    queue_pooling index vectorWidth true
      inp_data outp_data inp_backprop outp_backprop pp threads queue
  else
    queue_pooling index vectorWidth false
      inp_data outp_data inp_backprop outp_backprop pp threads queue

/-- Embedding of `launch_with_index<T, Index, PoolType, Direction>`. -/
def launch_with_index (b : PoolingBuild) (index : IndexType)
    (inp_data outp_data inp_backprop outp_backprop : MemObject)
    (pp : PoolingParams) (threads : Nat) (queue : Queue) : SNNStatus × Queue :=
  if b.can_vectorize pp 4 then
    launch_with_vector_size b index 4
      inp_data outp_data inp_backprop outp_backprop pp threads queue
  else if b.can_vectorize pp 2 then
    launch_with_vector_size b index 2
      inp_data outp_data inp_backprop outp_backprop pp threads queue
  else
    launch_with_vector_size b index 1
      inp_data outp_data inp_backprop outp_backprop pp threads queue

/-- Embedding of `launch_pooling` for max-gradient pooling.  The `#ifdef SNN_USE_INT64` is a
branch on the build flag. -/
def launch_pooling (b : PoolingBuild)
    (inp_data outp_data inp_backprop outp_backprop : MemObject)
    (pp : PoolingParams) (queue : Queue) : SNNStatus × Queue :=
  let sizes := b.get_sizes pp
  let threads := sizes.output_size
  if threads > INT32_MAX then
    if b.snn_use_int64 then
      launch_with_index b IndexType.int64
        inp_data outp_data inp_backprop outp_backprop pp threads queue
    else
      ({ event := none, status := StatusCode.IndexExceeded }, queue)
  else
    launch_with_index b IndexType.int32
      inp_data outp_data inp_backprop outp_backprop pp threads queue

/-! ### Observations on a launch -/

/-- The vector width the cascade of `launch_with_index` settles on. -/
def chosen_width (b : PoolingBuild) (pp : PoolingParams) : Nat :=
  if b.can_vectorize pp 4 then 4 else if b.can_vectorize pp 2 then 2 else 1

/-- The command group a pooling launch submits for the given instantiation and thread count. -/
def pooling_group (index : IndexType) (vectorWidth : Nat) (useFastDiv : Bool)
    (inp_data outp_data inp_backprop outp_backprop : MemObject)
    (pp : PoolingParams) (threads : Nat) : CommandGroup :=
  { accessors := [inp_data.read_accessor, outp_data.read_accessor,
      inp_backprop.read_accessor, outp_backprop.write_accessor],
    regions := [(threads, KernelFunctor.PoolingOp index vectorWidth useFastDiv
      inp_data.read_accessor outp_data.read_accessor
      inp_backprop.read_accessor outp_backprop.write_accessor pp)] }

/-- The index types of the pooling kernels a command group runs. -/
def CommandGroup.pooling_indices (cg : CommandGroup) : List IndexType :=
  cg.regions.filterMap fun r =>
    match r.2 with
    | KernelFunctor.PoolingOp index _ _ _ _ _ _ _ => some index
    | _ => none

/-- The vector widths of the pooling kernels a command group runs. -/
def CommandGroup.pooling_widths (cg : CommandGroup) : List Nat :=
  cg.regions.filterMap fun r =>
    match r.2 with
    | KernelFunctor.PoolingOp _ w _ _ _ _ _ _ => some w
    | _ => none

/-- The fast-division flags of the pooling kernels a command group runs. -/
def CommandGroup.pooling_fastdivs (cg : CommandGroup) : List Bool :=
  cg.regions.filterMap fun r =>
    match r.2 with
    | KernelFunctor.PoolingOp _ _ f _ _ _ _ _ => some f
    | _ => none

/-- The thread counts of the parallel regions of a command group. -/
def CommandGroup.ranges (cg : CommandGroup) : List Nat :=
  cg.regions.map Prod.fst

/-- A sample build used for concrete evaluations: 64-bit indices as given, the output of the
max-gradient launch taken to be the input-shaped gradient tensor, vectorisation when the
channel count is a multiple of the width, fast division when the vectorised channel count is
not one.  None of the general theorems depends on it. -/
def sample_build (int64 : Bool) : PoolingBuild where
  snn_use_int64 := int64
  get_sizes := fun pp =>
    { output_size := (pp.batch * pp.in_rows * pp.in_cols * pp.channels).toNat }
  can_vectorize := fun pp w => decide (pp.channels % (w : Int) = 0)
  can_use_fastdiv := fun pp w => decide (pp.channels / (w : Int) ≠ 1)

/-- A sample memory view over buffer `i`. -/
def sample_mem (i : Nat) : MemObject := { buffer := i, offset := 0, extent := 1024 }

/-- A sample pooling shape: a `rows` by `cols` input with `channels` channels, batch 1,
2 by 2 windows of stride 2. -/
def sample_pp (rows cols channels : Int) : PoolingParams :=
  { in_rows := rows, in_cols := cols, out_rows := rows / 2, out_cols := cols / 2,
    window_rows := 2, window_cols := 2, stride_rows := 2, stride_cols := 2,
    batch := 1, channels := channels, pad_rows := 0, pad_cols := 0 }

/-- The instantiations `(Index, VectorWidth, UseFastDiv)` of the pooling kernels a command group
runs. -/
def CommandGroup.pooling_instantiations (cg : CommandGroup) :
    List (IndexType × Nat × Bool) :=
  cg.regions.filterMap fun r =>
    match r.2 with
    | KernelFunctor.PoolingOp index w f _ _ _ _ _ => some (index, w, f)
    | _ => none

/-- The command groups a call of `launch_pooling` adds to the queue. -/
def launched (b : PoolingBuild) (inp_data outp_data inp_backprop outp_backprop : MemObject)
    (pp : PoolingParams) (queue : Queue) : List CommandGroup :=
  (launch_pooling b inp_data outp_data inp_backprop outp_backprop pp queue).2.drop queue.length

/-- The index type `launch_pooling` picks for a thread count that it does launch. -/
def chosen_index (threads : Nat) : IndexType :=
  if threads > INT32_MAX then IndexType.int64 else IndexType.int32

/-- Invalid shape and parameter combinations: a zero or negative window, stride or spatial
extent, or a computed output size of 0. -/
def invalid_params (b : PoolingBuild) (pp : PoolingParams) : Bool :=
  decide (pp.window_rows ≤ 0) || decide (pp.window_cols ≤ 0) ||
  decide (pp.stride_rows ≤ 0) || decide (pp.stride_cols ≤ 0) ||
  decide (pp.in_rows ≤ 0) || decide (pp.in_cols ≤ 0) ||
  decide (pp.out_rows ≤ 0) || decide (pp.out_cols ≤ 0) ||
  decide ((b.get_sizes pp).output_size = 0)

/-- A pooling shape that is invalid on every count: zero-sized windows, negative strides, a
zero-row input and so an output of 0 elements. -/
def invalid_pp : PoolingParams :=
  { in_rows := 0, in_cols := 4, out_rows := 0, out_cols := 2,
    window_rows := 0, window_cols := 0, stride_rows := -1, stride_cols := -1,
    batch := 1, channels := 1, pad_rows := 0, pad_cols := 0 }

/-! ## Winograd filter transform (`src/conv2d/winograd/queue_filter_transform_impl.h`) -/

/-- Arithmetic on C++ `int`: the result reduced to the 32-bit two's complement range. -/
def wrap_int32 (x : Int) : Int := (x + 2147483648) % 4294967296 - 2147483648

/-- Conversion of an `int` to `size_t` (64 bits). -/
def to_size_t (x : Int) : Nat := (x % 18446744073709551616).toNat

/-- Modelled from the spec: `helpers::round_up_to_nearest_multiple` (absent) rounds a value up
to the nearest multiple of the multiplier.  Written the way such a helper computes it on `int`:
add what is missing to the next multiple when the remainder is positive. -/
def round_up_to_nearest_multiple (val multiplier : Int) : Int :=
  let diff := Int.tmod val multiplier
  if diff > 0 then wrap_int32 (val + wrap_int32 (multiplier - diff)) else val

/-- Embedding of the lambda `round_up`: round up to the nearest multiple of 4. -/
def round_up (val : Int) : Int :=
  let pow_two_multiple : Int := 4
  round_up_to_nearest_multiple val pow_two_multiple

/-- Embedding of `get_thread_range<ConvType>`: the generic template, and its specialisation
for `conv_type::FilterBackprop`.  Products are `int` products, evaluated left to right. -/
def get_thread_range (convType : ConvType) (params : Conv2DParams) (tile_info : TileInfo) :
    Nat :=
  match convType with
  | ConvType.FilterBackprop =>
    to_size_t (round_up (wrap_int32 (wrap_int32 (wrap_int32
      (params.batch * tile_info.rows) * tile_info.cols) * params.features)))
  | _ => to_size_t (round_up (wrap_int32 (params.channels * params.features)))

/-- Embedding of `queue_filter_transform<T, Index, ConvType, M, N, R, S>`. -/
def queue_filter_transform (index : IndexType) (convType : ConvType) (m n r s : Nat)
    (filter_mem transform_mem : MemObject) (params : Conv2DParams) (tile_info : TileInfo)
    (queue : Queue) : SNNStatus × Queue :=
  let filter := filter_mem.read_accessor
  let transform := transform_mem.write_accessor
  let range := get_thread_range convType params tile_info
  let conv := KernelFunctor.ExtractFilterTiles index m n r s convType params tile_info
    filter transform
  let submitted := submit queue
    { accessors := [filter, transform], regions := [(range, conv)] }
  ({ event := submitted.1, status := StatusCode.OK }, submitted.2)

/-- A sample convolution shape with the given batch, channels and features. -/
def sample_conv (batch channels features : Int) : Conv2DParams :=
  { channels := channels, features := features, batch := batch,
    in_rows := 8, in_cols := 8, window_rows := 3, window_cols := 3,
    stride_rows := 1, stride_cols := 1, out_rows := 8, out_cols := 8,
    pad_rows := 1, pad_cols := 1, dilation_rows := 1, dilation_cols := 1 }

/-! ## Effect of a submitted command group on device memory

The kernels themselves (`src/pooling/kernels.h`) are not part of the embedding: a kernel body is
an arbitrary function from the functor, the thread id and the current memory to the stores the
thread issues.  A store names the accessor it goes through; the runtime performs it only through
an accessor bound in write mode, inside the view the accessor was requested from. -/

/-- Device memory: the contents of every buffer, by buffer id. -/
abbrev DeviceMemory (α : Type) := Nat → List α

/-- A store issued by a kernel thread: the position of the accessor in the command group, the
element index inside the view, and the value. -/
structure Store (α : Type) where
  accessor : Nat
  index : Nat
  value : α

/-- A kernel body: the stores thread `tid` of the functor issues on the given memory. -/
abbrev KernelBody (α : Type) := KernelFunctor → Nat → DeviceMemory α → List (Store α)

/-- Perform one store: only through a write accessor, and only inside its view. -/
def apply_store {α : Type} (accs : List Accessor) (mem : DeviceMemory α) (st : Store α) :
    DeviceMemory α :=
  match accs.get? st.accessor with
  | some a =>
    if a.mode = AccessMode.write ∧ st.index < a.mem.extent then
      Function.update mem a.mem.buffer
        ((mem a.mem.buffer).set (a.mem.offset + st.index) st.value)
    else mem
  | none => mem

/-- Run one parallel region: every thread id of the range, each issuing its stores. -/
def run_region {α : Type} (body : KernelBody α) (accs : List Accessor)
    (mem : DeviceMemory α) (region : Nat × KernelFunctor) : DeviceMemory α :=
  (List.range region.1).foldl
    (fun m tid => (body region.2 tid m).foldl (apply_store accs) m) mem

/-- Run one command group. -/
def run_group {α : Type} (body : KernelBody α) (mem : DeviceMemory α) (cg : CommandGroup) :
    DeviceMemory α :=
  cg.regions.foldl (run_region body cg.accessors) mem

/-- Run a list of command groups in order. -/
def run_groups {α : Type} (body : KernelBody α) (mem : DeviceMemory α)
    (groups : List CommandGroup) : DeviceMemory α :=
  groups.foldl (run_group body) mem

/-- A sample state of four buffers, ids 0 to 3: forward input, forward output, incoming
gradient, output backprop. -/
def sample_memory : DeviceMemory Int := fun i =>
  if i = 0 then [1, 5, 2, 3] else if i = 1 then [5] else if i = 2 then [7]
  else if i = 3 then [0, 0, 0, 0] else []

/-- A sample kernel body that tries to store the value 9 through every one of its four
accessors at the element of its thread id. -/
def sample_body : KernelBody Int := fun _ tid _ =>
  [⟨0, tid, 9⟩, ⟨1, tid, 9⟩, ⟨2, tid, 9⟩, ⟨3, tid, 9⟩]

/-! ## Theorems -/

/-- Unfolding of `launch_with_index`: it always submits exactly the command group of the
instantiation chosen by the cascade, and returns OK with that command group's event. -/
theorem launch_with_index_eq (b : PoolingBuild) (index : IndexType)
    (m1 m2 m3 m4 : MemObject) (pp : PoolingParams) (threads : Nat) (queue : Queue) :
    launch_with_index b index m1 m2 m3 m4 pp threads queue =
      ({ event := some queue.length, status := StatusCode.OK },
        queue ++ [pooling_group index (chosen_width b pp)
          (b.can_use_fastdiv pp (chosen_width b pp)) m1 m2 m3 m4 pp
          (threads / chosen_width b pp)]) := by
  unfold launch_with_index chosen_width launch_with_vector_size queue_pooling submit
    pooling_group
  by_cases h4 : b.can_vectorize pp 4 = true
  · by_cases f : b.can_use_fastdiv pp 4 = true <;> simp [h4, f]
  · by_cases h2 : b.can_vectorize pp 2 = true
    · by_cases f : b.can_use_fastdiv pp 2 = true <;> simp [h4, h2, f]
    · by_cases f : b.can_use_fastdiv pp 1 = true <;> simp [h4, h2, f]

/-- Unfolding of `launch_pooling`: either the early return with IndexExceeded and the queue
untouched, or one command group appended for the instantiation picked by the three choices. -/
theorem launch_pooling_eq (b : PoolingBuild) (m1 m2 m3 m4 : MemObject) (pp : PoolingParams)
    (queue : Queue) :
    launch_pooling b m1 m2 m3 m4 pp queue =
      if INT32_MAX < (b.get_sizes pp).output_size ∧ b.snn_use_int64 = false then
        ({ event := none, status := StatusCode.IndexExceeded }, queue)
      else
        ({ event := some queue.length, status := StatusCode.OK },
          queue ++ [pooling_group (chosen_index (b.get_sizes pp).output_size)
            (chosen_width b pp) (b.can_use_fastdiv pp (chosen_width b pp)) m1 m2 m3 m4 pp
            ((b.get_sizes pp).output_size / chosen_width b pp)]) := by
  unfold launch_pooling chosen_index
  simp only [launch_with_index_eq, gt_iff_lt]
  by_cases h : INT32_MAX < (b.get_sizes pp).output_size
  · cases h64 : b.snn_use_int64 <;> simp [h]
  · simp [h]

/-- The command groups added by `launch_pooling`, in closed form. -/
theorem launched_eq (b : PoolingBuild) (m1 m2 m3 m4 : MemObject) (pp : PoolingParams)
    (queue : Queue) :
    launched b m1 m2 m3 m4 pp queue =
      if INT32_MAX < (b.get_sizes pp).output_size ∧ b.snn_use_int64 = false then []
      else [pooling_group (chosen_index (b.get_sizes pp).output_size)
            (chosen_width b pp) (b.can_use_fastdiv pp (chosen_width b pp)) m1 m2 m3 m4 pp
            ((b.get_sizes pp).output_size / chosen_width b pp)] := by
  unfold launched
  rw [launch_pooling_eq]
  split <;> simp

/-- The cascade settles on 4, 2 or 1. -/
theorem chosen_width_cases (b : PoolingBuild) (pp : PoolingParams) :
    chosen_width b pp = 4 ∨ chosen_width b pp = 2 ∨ chosen_width b pp = 1 := by
  unfold chosen_width
  split
  · exact Or.inl rfl
  · split
    · exact Or.inr (Or.inl rfl)
    · exact Or.inr (Or.inr rfl)

/-! ### C1: index width -/

/-- C1. In `launch_pooling`, with `threads = get_sizes(pp).output_size`: when
`threads <= 2^31-1` exactly one kernel is launched and it is instantiated with `int32_t`;
when `threads > 2^31-1` and the build has `SNN_USE_INT64` exactly one kernel is launched and it
is instantiated with `int64_t`; when `threads > 2^31-1` and the build lacks it, nothing is
launched and the result is IndexExceeded with a default event. -/
theorem C1_index_width_selection (b : PoolingBuild) (m1 m2 m3 m4 : MemObject)
    (pp : PoolingParams) (queue : Queue) :
    ((b.get_sizes pp).output_size ≤ 2147483647 →
      ∃ cg, (launch_pooling b m1 m2 m3 m4 pp queue).2 = queue ++ [cg] ∧
        cg.pooling_indices = [IndexType.int32]) ∧
    (2147483647 < (b.get_sizes pp).output_size → b.snn_use_int64 = true →
      ∃ cg, (launch_pooling b m1 m2 m3 m4 pp queue).2 = queue ++ [cg] ∧
        cg.pooling_indices = [IndexType.int64]) ∧
    (2147483647 < (b.get_sizes pp).output_size → b.snn_use_int64 = false →
      launch_pooling b m1 m2 m3 m4 pp queue =
        ({ event := none, status := StatusCode.IndexExceeded }, queue)) := by
  rw [launch_pooling_eq]
  refine ⟨fun h => ?_, fun h h64 => ?_, fun h h64 => ?_⟩
  · have hn : ¬ INT32_MAX < (b.get_sizes pp).output_size := by unfold INT32_MAX; omega
    rw [if_neg (fun hc => hn hc.1)]
    exact ⟨_, rfl, by simp [pooling_group, CommandGroup.pooling_indices, chosen_index, hn]⟩
  · have hn : INT32_MAX < (b.get_sizes pp).output_size := by unfold INT32_MAX; omega
    rw [if_neg (fun hc => by simp [h64] at hc)]
    exact ⟨_, rfl, by simp [pooling_group, CommandGroup.pooling_indices, chosen_index, hn]⟩
  · have hn : INT32_MAX < (b.get_sizes pp).output_size := by unfold INT32_MAX; omega
    simp [hn, h64]

/-- Witness for C1 at the boundary: output size exactly 2^31-1 launches `int32_t`, output size
2^31 launches `int64_t` on a 64-bit build and returns IndexExceeded otherwise. -/
theorem C1_index_width_selection_witness :
    (∃ cg, (launch_pooling (sample_build false) (sample_mem 0) (sample_mem 1) (sample_mem 2)
        (sample_mem 3) (sample_pp 2147483647 1 1) []).2 = [] ++ [cg] ∧
      cg.pooling_indices = [IndexType.int32]) ∧
    (∃ cg, (launch_pooling (sample_build true) (sample_mem 0) (sample_mem 1) (sample_mem 2)
        (sample_mem 3) (sample_pp 2147483648 1 1) []).2 = [] ++ [cg] ∧
      cg.pooling_indices = [IndexType.int64]) ∧
    launch_pooling (sample_build false) (sample_mem 0) (sample_mem 1) (sample_mem 2)
        (sample_mem 3) (sample_pp 2147483648 1 1) [] =
      ({ event := none, status := StatusCode.IndexExceeded }, []) :=
  ⟨(C1_index_width_selection (sample_build false) (sample_mem 0) (sample_mem 1) (sample_mem 2)
      (sample_mem 3) (sample_pp 2147483647 1 1) []).1 (by decide),
   (C1_index_width_selection (sample_build true) (sample_mem 0) (sample_mem 1) (sample_mem 2)
      (sample_mem 3) (sample_pp 2147483648 1 1) []).2.1 (by decide) rfl,
   (C1_index_width_selection (sample_build false) (sample_mem 0) (sample_mem 1) (sample_mem 2)
      (sample_mem 3) (sample_pp 2147483648 1 1) []).2.2 (by decide) rfl⟩

/-! ### C2: statuses and the queue -/

/-- C2. With the queue an explicit list: `launch_pooling` returns a status other than OK if and
only if the output size exceeds 2^31-1 and the build lacks 64-bit index support; in that case
the status is IndexExceeded and the queue is unchanged; in every other case the status is OK
and exactly one command group, holding one kernel, has been appended.  No status other than OK
and IndexExceeded is returned. -/
theorem C2_status_and_queue (b : PoolingBuild) (m1 m2 m3 m4 : MemObject)
    (pp : PoolingParams) (queue : Queue) :
    ((launch_pooling b m1 m2 m3 m4 pp queue).1.status ≠ StatusCode.OK ↔
      (2147483647 < (b.get_sizes pp).output_size ∧ b.snn_use_int64 = false)) ∧
    ((launch_pooling b m1 m2 m3 m4 pp queue).1.status ≠ StatusCode.OK →
      (launch_pooling b m1 m2 m3 m4 pp queue).1.status = StatusCode.IndexExceeded ∧
      (launch_pooling b m1 m2 m3 m4 pp queue).2 = queue) ∧
    ((launch_pooling b m1 m2 m3 m4 pp queue).1.status = StatusCode.OK →
      ∃ cg, (launch_pooling b m1 m2 m3 m4 pp queue).2 = queue ++ [cg] ∧
        cg.regions.length = 1 ∧
        (launch_pooling b m1 m2 m3 m4 pp queue).1.event = some queue.length) ∧
    ((launch_pooling b m1 m2 m3 m4 pp queue).1.status = StatusCode.OK ∨
      (launch_pooling b m1 m2 m3 m4 pp queue).1.status = StatusCode.IndexExceeded) := by
  rw [launch_pooling_eq]
  have hmax : INT32_MAX = 2147483647 := rfl
  rw [hmax]
  by_cases h : 2147483647 < (b.get_sizes pp).output_size ∧ b.snn_use_int64 = false
  · rw [if_pos h]
    simp [h]
  · rw [if_neg h]
    refine ⟨by simp [h], by simp, fun _ => ⟨_, rfl, by simp [pooling_group], rfl⟩, Or.inl rfl⟩

/-- Witness for C2: an output of 2^31 elements on a build without 64-bit indices is refused with
IndexExceeded and leaves the queue as it was; an output of 16 elements is launched with OK and
lengthens the queue by one. -/
theorem C2_status_and_queue_witness :
    ((launch_pooling (sample_build false) (sample_mem 0) (sample_mem 1) (sample_mem 2)
        (sample_mem 3) (sample_pp 2147483648 1 1) []).1.status = StatusCode.IndexExceeded ∧
      (launch_pooling (sample_build false) (sample_mem 0) (sample_mem 1) (sample_mem 2)
        (sample_mem 3) (sample_pp 2147483648 1 1) []).2 = []) ∧
    (∃ cg, (launch_pooling (sample_build false) (sample_mem 0) (sample_mem 1) (sample_mem 2)
        (sample_mem 3) (sample_pp 4 4 1) []).2 = [] ++ [cg] ∧ cg.regions.length = 1 ∧
      (launch_pooling (sample_build false) (sample_mem 0) (sample_mem 1) (sample_mem 2)
        (sample_mem 3) (sample_pp 4 4 1) []).1.event = some ([] : Queue).length) :=
  ⟨(C2_status_and_queue (sample_build false) (sample_mem 0) (sample_mem 1) (sample_mem 2)
      (sample_mem 3) (sample_pp 2147483648 1 1) []).2.1 (by decide),
   (C2_status_and_queue (sample_build false) (sample_mem 0) (sample_mem 1) (sample_mem 2)
      (sample_mem 3) (sample_pp 4 4 1) []).2.2.1 (by decide)⟩

/-! ### C3: vector width cascade -/

/-- C3. For every PoolingParams, `launch_with_index` launches exactly one kernel, and its vector
width `w` is the first usable element of 4, 2, 1: `w = 4` if `can_vectorize(pp, 4)`; `w = 2` if
that fails and `can_vectorize(pp, 2)` holds; `w = 1` otherwise.  So `w` is one of 1, 2, 4, and
`can_vectorize` fails for every width of the sequence larger than `w`. -/
theorem C3_vector_width_cascade (b : PoolingBuild) (index : IndexType)
    (m1 m2 m3 m4 : MemObject) (pp : PoolingParams) (threads : Nat) (queue : Queue) :
    ∃ cg w, (launch_with_index b index m1 m2 m3 m4 pp threads queue).2 = queue ++ [cg] ∧
      cg.pooling_widths = [w] ∧
      (b.can_vectorize pp 4 = true → w = 4) ∧
      (b.can_vectorize pp 4 = false → b.can_vectorize pp 2 = true → w = 2) ∧
      (b.can_vectorize pp 4 = false → b.can_vectorize pp 2 = false → w = 1) ∧
      (w = 1 ∨ w = 2 ∨ w = 4) ∧
      (∀ v, v ∈ [4, 2, 1] → w < v → b.can_vectorize pp v = false) := by
  rw [launch_with_index_eq]
  refine ⟨_, chosen_width b pp, rfl, by simp [pooling_group, CommandGroup.pooling_widths], ?_⟩
  unfold chosen_width
  cases h4 : b.can_vectorize pp 4 <;> cases h2 : b.can_vectorize pp 2 <;> simp [h4, h2]

/-- Witness for C3: 8 channels are launched at width 4, 6 channels at width 2, 7 channels at
width 1 (sample build: a width is usable when it divides the channel count). -/
theorem C3_vector_width_cascade_witness :
    (launch_with_index (sample_build false) IndexType.int32 (sample_mem 0) (sample_mem 1)
        (sample_mem 2) (sample_mem 3) (sample_pp 4 4 8) 128 []).2.map
        CommandGroup.pooling_widths = [[4]] ∧
    (launch_with_index (sample_build false) IndexType.int32 (sample_mem 0) (sample_mem 1)
        (sample_mem 2) (sample_mem 3) (sample_pp 4 4 6) 96 []).2.map
        CommandGroup.pooling_widths = [[2]] ∧
    (launch_with_index (sample_build false) IndexType.int32 (sample_mem 0) (sample_mem 1)
        (sample_mem 2) (sample_mem 3) (sample_pp 4 4 7) 112 []).2.map
        CommandGroup.pooling_widths = [[1]] := by
  refine ⟨?_, ?_, ?_⟩
  · obtain ⟨cg, w, hq, hw, h4, -⟩ := C3_vector_width_cascade (sample_build false)
      IndexType.int32 (sample_mem 0) (sample_mem 1) (sample_mem 2) (sample_mem 3)
      (sample_pp 4 4 8) 128 []
    rw [hq, List.nil_append, List.map_singleton, hw, h4 (by decide)]
  · obtain ⟨cg, w, hq, hw, -, h2, -⟩ := C3_vector_width_cascade (sample_build false)
      IndexType.int32 (sample_mem 0) (sample_mem 1) (sample_mem 2) (sample_mem 3)
      (sample_pp 4 4 6) 96 []
    rw [hq, List.nil_append, List.map_singleton, hw, h2 (by decide) (by decide)]
  · obtain ⟨cg, w, hq, hw, -, -, h1, -⟩ := C3_vector_width_cascade (sample_build false)
      IndexType.int32 (sample_mem 0) (sample_mem 1) (sample_mem 2) (sample_mem 3)
      (sample_pp 4 4 7) 112 []
    rw [hq, List.nil_append, List.map_singleton, hw, h1 (by decide) (by decide)]

/-! ### C4, C5: thread range of the Winograd filter transform -/

/-- On values that fit, `int` arithmetic is exact. -/
theorem wrap_int32_of_fits (x : Int) (lo : -2147483648 ≤ x) (hi : x ≤ 2147483647) :
    wrap_int32 x = x := by
  unfold wrap_int32
  omega

/-- Reducing a factor to the `int` range before multiplying does not change the reduced
product. -/
theorem wrap_int32_mul_left (a c : Int) :
    wrap_int32 (wrap_int32 a * c) = wrap_int32 (a * c) := by
  have h : wrap_int32 a = a - 4294967296 * ((a + 2147483648) / 4294967296) := by
    unfold wrap_int32
    omega
  rw [h]
  unfold wrap_int32
  have e : (a - 4294967296 * ((a + 2147483648) / 4294967296)) * c + 2147483648 =
      (a * c + 2147483648) + 4294967296 * (-(((a + 2147483648) / 4294967296) * c)) := by
    ring
  rw [e, Int.add_mul_emod_self_left]

/-- On a non-negative `int` with room for 3 more, `round_up` followed by the conversion to
`size_t` gives the least multiple of 4 that is not below the value. -/
theorem round_up_spec (p : Int) (h0 : 0 ≤ p) (hfit : p + 3 ≤ 2147483647) :
    (4 : Int) ∣ (to_size_t (round_up p) : Int) ∧ p ≤ (to_size_t (round_up p) : Int) ∧
      ∀ m : Int, 4 ∣ m → p ≤ m → (to_size_t (round_up p) : Int) ≤ m := by
  have ht : Int.tmod p 4 = p % 4 := Int.tmod_eq_emod h0 (by decide)
  have hr : round_up p = if p % 4 > 0 then p + (4 - p % 4) else p := by
    unfold round_up round_up_to_nearest_multiple
    simp only [ht]
    split
    · rw [wrap_int32_of_fits (4 - p % 4) (by omega) (by omega),
        wrap_int32_of_fits _ (by omega) (by omega)]
    · rfl
  have hs : (to_size_t (round_up p) : Int) = round_up p := by
    unfold to_size_t
    rw [Int.toNat_of_nonneg (by omega)]
    rw [hr]
    split <;> omega
  rw [hs, hr]
  split <;> refine ⟨by omega, by omega, fun m hm hp => by omega⟩

/-- C4. For non-negative channels and features whose product plus 3 fits in a signed 32-bit
int, and any TileInfo, the thread range of the generic `get_thread_range` (directions Forward
and InputBackprop) is the smallest multiple of 4 that is at least `channels * features`, and it
depends neither on the batch size nor on the TileInfo. -/
theorem C4_thread_range_generic (convType : ConvType) (params : Conv2DParams)
    (tile_info : TileInfo)
    (hdir : convType = ConvType.Forward ∨ convType = ConvType.InputBackprop)
    (hc : 0 ≤ params.channels) (hf : 0 ≤ params.features)
    (hfit : params.channels * params.features + 3 ≤ 2147483647) :
    (4 : Int) ∣ (get_thread_range convType params tile_info : Int) ∧
    params.channels * params.features ≤ (get_thread_range convType params tile_info : Int) ∧
    (∀ m : Int, 4 ∣ m → params.channels * params.features ≤ m →
      (get_thread_range convType params tile_info : Int) ≤ m) ∧
    (∀ (batch : Int) (other : TileInfo),
      get_thread_range convType { params with batch := batch } other =
        get_thread_range convType params tile_info) := by
  have hp : 0 ≤ params.channels * params.features := Int.mul_nonneg hc hf
  have hg : ∀ (q : Conv2DParams) (t : TileInfo), get_thread_range convType q t =
      to_size_t (round_up (wrap_int32 (q.channels * q.features))) := by
    intro q t
    rcases hdir with h | h <;> subst h <;> rfl
  have hw : wrap_int32 (params.channels * params.features) =
      params.channels * params.features :=
    wrap_int32_of_fits _ (by omega) (by omega)
  obtain ⟨h1, h2, h3⟩ := round_up_spec _ hp hfit
  rw [hg params tile_info, hw]
  exact ⟨h1, h2, h3, fun batch other => by rw [hg]; dsimp only; rw [hw]⟩

/-- Witness for C4: 3 channels and 5 features, Forward direction, give 16 threads whatever
the batch and the tile counts. -/
theorem C4_thread_range_generic_witness :
    (4 : Int) ∣ (get_thread_range ConvType.Forward (sample_conv 2 3 5) ⟨7, 9⟩ : Int) ∧
    (sample_conv 2 3 5).channels * (sample_conv 2 3 5).features ≤
      (get_thread_range ConvType.Forward (sample_conv 2 3 5) ⟨7, 9⟩ : Int) ∧
    (∀ m : Int, 4 ∣ m → (sample_conv 2 3 5).channels * (sample_conv 2 3 5).features ≤ m →
      (get_thread_range ConvType.Forward (sample_conv 2 3 5) ⟨7, 9⟩ : Int) ≤ m) ∧
    (∀ (batch : Int) (other : TileInfo),
      get_thread_range ConvType.Forward { sample_conv 2 3 5 with batch := batch } other =
        get_thread_range ConvType.Forward (sample_conv 2 3 5) ⟨7, 9⟩) :=
  C4_thread_range_generic ConvType.Forward (sample_conv 2 3 5) ⟨7, 9⟩ (Or.inl rfl)
    (by decide) (by decide) (by decide)

/-- C5. For non-negative batch, tile rows, tile cols and features whose product plus 3 fits in a
signed 32-bit int, the thread range of `get_thread_range<conv_type::FilterBackprop>` is the
smallest multiple of 4 that is at least `batch * tile_info.rows * tile_info.cols * features`,
and it does not depend on the number of channels. -/
theorem C5_thread_range_filter_backprop (params : Conv2DParams) (tile_info : TileInfo)
    (hb : 0 ≤ params.batch) (hr : 0 ≤ tile_info.rows) (hc : 0 ≤ tile_info.cols)
    (hf : 0 ≤ params.features)
    (hfit : params.batch * tile_info.rows * tile_info.cols * params.features + 3
      ≤ 2147483647) :
    (4 : Int) ∣ (get_thread_range ConvType.FilterBackprop params tile_info : Int) ∧
    params.batch * tile_info.rows * tile_info.cols * params.features ≤
      (get_thread_range ConvType.FilterBackprop params tile_info : Int) ∧
    (∀ m : Int, 4 ∣ m →
      params.batch * tile_info.rows * tile_info.cols * params.features ≤ m →
      (get_thread_range ConvType.FilterBackprop params tile_info : Int) ≤ m) ∧
    (∀ channels : Int,
      get_thread_range ConvType.FilterBackprop { params with channels := channels } tile_info =
        get_thread_range ConvType.FilterBackprop params tile_info) := by
  have hp : 0 ≤ params.batch * tile_info.rows * tile_info.cols * params.features :=
    Int.mul_nonneg (Int.mul_nonneg (Int.mul_nonneg hb hr) hc) hf
  have hw : wrap_int32 (wrap_int32 (wrap_int32
      (params.batch * tile_info.rows) * tile_info.cols) * params.features) =
      params.batch * tile_info.rows * tile_info.cols * params.features := by
    rw [wrap_int32_mul_left, mul_assoc, wrap_int32_mul_left, ← mul_assoc]
    exact wrap_int32_of_fits _ (by omega) (by omega)
  obtain ⟨h1, h2, h3⟩ := round_up_spec _ hp hfit
  have hg : get_thread_range ConvType.FilterBackprop params tile_info =
      to_size_t (round_up (wrap_int32 (wrap_int32 (wrap_int32
        (params.batch * tile_info.rows) * tile_info.cols) * params.features))) := rfl
  rw [hg, hw]
  exact ⟨h1, h2, h3, fun channels => by rw [← hw]; rfl⟩

/-- Witness for C5: batch 2 with 3 by 3 tiles and 5 features (product 90) gives 92 threads
whatever the channel count. -/
theorem C5_thread_range_filter_backprop_witness :
    (4 : Int) ∣ (get_thread_range ConvType.FilterBackprop (sample_conv 2 7 5) ⟨3, 3⟩ : Int) ∧
    (sample_conv 2 7 5).batch * (3 : Int) * 3 * (sample_conv 2 7 5).features ≤
      (get_thread_range ConvType.FilterBackprop (sample_conv 2 7 5) ⟨3, 3⟩ : Int) ∧
    (∀ m : Int, 4 ∣ m → (sample_conv 2 7 5).batch * (3 : Int) * 3 *
        (sample_conv 2 7 5).features ≤ m →
      (get_thread_range ConvType.FilterBackprop (sample_conv 2 7 5) ⟨3, 3⟩ : Int) ≤ m) ∧
    (∀ channels : Int,
      get_thread_range ConvType.FilterBackprop
          { sample_conv 2 7 5 with channels := channels } ⟨3, 3⟩ =
        get_thread_range ConvType.FilterBackprop (sample_conv 2 7 5) ⟨3, 3⟩) :=
  C5_thread_range_filter_backprop (sample_conv 2 7 5) ⟨3, 3⟩
    (by decide) (by decide) (by decide) (by decide) (by decide)

/-! ### C6: the pooling thread range is not rounded up -/

/-- C6, the claim fails: on a 7 by 1 input with one channel the launch submits a range of 7
threads, and 7 is not a multiple of 4. -/
theorem C6_thread_range_counterexample :
    (launched (sample_build false) (sample_mem 0) (sample_mem 1) (sample_mem 2) (sample_mem 3)
        (sample_pp 7 1 1) []).map CommandGroup.ranges = [[7]] ∧
    ((sample_build false).get_sizes (sample_pp 7 1 1)).output_size = 7 ∧
    ¬ (4 ∣ (7 : Nat)) := by
  decide

/-- C6, amended. For every PoolingParams on which the launch submits a kernel, the submitted
thread count `t` is the output size divided by the chosen vector width `w` (one of 1, 2, 4),
rounded down and not rounded up to any granularity: `w * t <= output_size < w * (t + 1)`.
It reaches the number of work items needed to cover the output, `output_size / w` rounded up,
exactly when `w` divides the output size. -/
theorem C6_thread_range_rounded_down (b : PoolingBuild) (m1 m2 m3 m4 : MemObject)
    (pp : PoolingParams) (queue : Queue) (cg : CommandGroup) (t : Nat)
    (hcg : cg ∈ launched b m1 m2 m3 m4 pp queue) (ht : t ∈ cg.ranges) :
    ∃ w, cg.pooling_widths = [w] ∧ (w = 1 ∨ w = 2 ∨ w = 4) ∧
      w * t ≤ (b.get_sizes pp).output_size ∧
      (b.get_sizes pp).output_size < w * (t + 1) ∧
      (((b.get_sizes pp).output_size + w - 1) / w ≤ t ↔ w ∣ (b.get_sizes pp).output_size) := by
  rw [launched_eq] at hcg
  split at hcg
  · simp at hcg
  · rw [List.mem_singleton] at hcg
    subst hcg
    simp only [pooling_group, CommandGroup.ranges, List.map_cons, List.map_nil,
      List.mem_singleton] at ht
    subst ht
    refine ⟨chosen_width b pp, by simp [pooling_group, CommandGroup.pooling_widths], ?_⟩
    rcases chosen_width_cases b pp with h | h | h <;> rw [h] <;>
      refine ⟨by omega, by omega, by omega, ?_⟩ <;> omega

/-- Witness for C6 amended: the 7-element output launched at width 1 gets exactly 7 threads. -/
theorem C6_thread_range_rounded_down_witness :
    ∃ w, (pooling_group IndexType.int32 1 false (sample_mem 0) (sample_mem 1) (sample_mem 2)
        (sample_mem 3) (sample_pp 7 1 1) 7).pooling_widths = [w] ∧ (w = 1 ∨ w = 2 ∨ w = 4) ∧
      w * 7 ≤ ((sample_build false).get_sizes (sample_pp 7 1 1)).output_size ∧
      ((sample_build false).get_sizes (sample_pp 7 1 1)).output_size < w * (7 + 1) ∧
      ((((sample_build false).get_sizes (sample_pp 7 1 1)).output_size + w - 1) / w ≤ 7 ↔
        w ∣ ((sample_build false).get_sizes (sample_pp 7 1 1)).output_size) :=
  C6_thread_range_rounded_down (sample_build false) (sample_mem 0) (sample_mem 1)
    (sample_mem 2) (sample_mem 3) (sample_pp 7 1 1) []
    (pooling_group IndexType.int32 1 false (sample_mem 0) (sample_mem 1) (sample_mem 2)
      (sample_mem 3) (sample_pp 7 1 1) 7) 7 (by decide) (by decide)

/-! ### C7: the three choices compose -/

/-- C7. Every kernel `launch_pooling` submits is instantiated with
`UseFastDiv = can_use_fastdiv(pp, VectorWidth)` at the vector width the cascade chose.  The
choices are independent: for each index type, each width in 4, 2, 1 and each flag, whenever the
thread-count precondition of the index type, the cascade precondition of the width and
`can_use_fastdiv(pp, width) = flag` hold, the launch submits exactly one kernel and it is that
combination. -/
theorem C7_instantiation_choices (b : PoolingBuild) (m1 m2 m3 m4 : MemObject)
    (pp : PoolingParams) (queue : Queue) :
    (∀ cg, cg ∈ launched b m1 m2 m3 m4 pp queue →
      ∃ i w, cg.pooling_instantiations = [(i, w, b.can_use_fastdiv pp w)] ∧
        (w = 4 ∧ b.can_vectorize pp 4 = true ∨
         w = 2 ∧ b.can_vectorize pp 4 = false ∧ b.can_vectorize pp 2 = true ∨
         w = 1 ∧ b.can_vectorize pp 4 = false ∧ b.can_vectorize pp 2 = false)) ∧
    (∀ (i : IndexType) (w : Nat) (f : Bool),
      (i = IndexType.int32 ∧ (b.get_sizes pp).output_size ≤ 2147483647 ∨
       i = IndexType.int64 ∧ 2147483647 < (b.get_sizes pp).output_size ∧
         b.snn_use_int64 = true) →
      (w = 4 ∧ b.can_vectorize pp 4 = true ∨
       w = 2 ∧ b.can_vectorize pp 4 = false ∧ b.can_vectorize pp 2 = true ∨
       w = 1 ∧ b.can_vectorize pp 4 = false ∧ b.can_vectorize pp 2 = false) →
      b.can_use_fastdiv pp w = f →
      (launched b m1 m2 m3 m4 pp queue).map CommandGroup.pooling_instantiations =
        [[(i, w, f)]]) := by
  have hmax : INT32_MAX = 2147483647 := rfl
  have hw : chosen_width b pp = 4 ∧ b.can_vectorize pp 4 = true ∨
      chosen_width b pp = 2 ∧ b.can_vectorize pp 4 = false ∧ b.can_vectorize pp 2 = true ∨
      chosen_width b pp = 1 ∧ b.can_vectorize pp 4 = false ∧ b.can_vectorize pp 2 = false := by
    unfold chosen_width
    cases h4 : b.can_vectorize pp 4 <;> cases h2 : b.can_vectorize pp 2 <;> simp
  rw [launched_eq, hmax]
  constructor
  · intro cg hcg
    split at hcg
    · simp at hcg
    · rw [List.mem_singleton] at hcg
      subst hcg
      exact ⟨chosen_index (b.get_sizes pp).output_size, chosen_width b pp,
        by simp [pooling_group, CommandGroup.pooling_instantiations], hw⟩
  · intro i w f hi hwid hf
    have hwe : chosen_width b pp = w := by
      rcases hw with ⟨e, c4⟩ | ⟨e, c4, c2⟩ | ⟨e, c4, c2⟩ <;>
        rcases hwid with ⟨e2, d4⟩ | ⟨e2, d4, d2⟩ | ⟨e2, d4, d2⟩ <;> simp_all
    have hie : ¬ (2147483647 < (b.get_sizes pp).output_size ∧ b.snn_use_int64 = false) ∧
        chosen_index (b.get_sizes pp).output_size = i := by
      unfold chosen_index
      rw [hmax]
      rcases hi with ⟨e, h⟩ | ⟨e, h, h64⟩
      · exact ⟨fun hc => by omega, by rw [e, if_neg (by omega)]⟩
      · exact ⟨fun hc => by simp [h64] at hc, by rw [e, if_pos h]⟩
    rw [if_neg hie.1, hie.2, hwe, hf]
    simp [pooling_group, CommandGroup.pooling_instantiations]

/-- Witness for C7: all twelve combinations of index type, vector width and fast-division flag
are reached on the sample build, each on a shape that meets its preconditions. -/
theorem C7_instantiation_choices_witness :
    (launched (sample_build false) (sample_mem 0) (sample_mem 1) (sample_mem 2) (sample_mem 3)
        (sample_pp 4 1 8) []).map CommandGroup.pooling_instantiations =
      [[(IndexType.int32, 4, true)]] ∧
    (launched (sample_build false) (sample_mem 0) (sample_mem 1) (sample_mem 2) (sample_mem 3)
        (sample_pp 4 1 4) []).map CommandGroup.pooling_instantiations =
      [[(IndexType.int32, 4, false)]] ∧
    (launched (sample_build false) (sample_mem 0) (sample_mem 1) (sample_mem 2) (sample_mem 3)
        (sample_pp 4 1 6) []).map CommandGroup.pooling_instantiations =
      [[(IndexType.int32, 2, true)]] ∧
    (launched (sample_build false) (sample_mem 0) (sample_mem 1) (sample_mem 2) (sample_mem 3)
        (sample_pp 4 1 2) []).map CommandGroup.pooling_instantiations =
      [[(IndexType.int32, 2, false)]] ∧
    (launched (sample_build false) (sample_mem 0) (sample_mem 1) (sample_mem 2) (sample_mem 3)
        (sample_pp 4 1 3) []).map CommandGroup.pooling_instantiations =
      [[(IndexType.int32, 1, true)]] ∧
    (launched (sample_build false) (sample_mem 0) (sample_mem 1) (sample_mem 2) (sample_mem 3)
        (sample_pp 4 1 1) []).map CommandGroup.pooling_instantiations =
      [[(IndexType.int32, 1, false)]] ∧
    (launched (sample_build true) (sample_mem 0) (sample_mem 1) (sample_mem 2) (sample_mem 3)
        (sample_pp 2147483648 1 8) []).map CommandGroup.pooling_instantiations =
      [[(IndexType.int64, 4, true)]] ∧
    (launched (sample_build true) (sample_mem 0) (sample_mem 1) (sample_mem 2) (sample_mem 3)
        (sample_pp 2147483648 1 4) []).map CommandGroup.pooling_instantiations =
      [[(IndexType.int64, 4, false)]] ∧
    (launched (sample_build true) (sample_mem 0) (sample_mem 1) (sample_mem 2) (sample_mem 3)
        (sample_pp 2147483648 1 6) []).map CommandGroup.pooling_instantiations =
      [[(IndexType.int64, 2, true)]] ∧
    (launched (sample_build true) (sample_mem 0) (sample_mem 1) (sample_mem 2) (sample_mem 3)
        (sample_pp 2147483648 1 2) []).map CommandGroup.pooling_instantiations =
      [[(IndexType.int64, 2, false)]] ∧
    (launched (sample_build true) (sample_mem 0) (sample_mem 1) (sample_mem 2) (sample_mem 3)
        (sample_pp 2147483648 1 3) []).map CommandGroup.pooling_instantiations =
      [[(IndexType.int64, 1, true)]] ∧
    (launched (sample_build true) (sample_mem 0) (sample_mem 1) (sample_mem 2) (sample_mem 3)
        (sample_pp 2147483648 1 1) []).map CommandGroup.pooling_instantiations =
      [[(IndexType.int64, 1, false)]] :=
  ⟨(C7_instantiation_choices (sample_build false) (sample_mem 0) (sample_mem 1) (sample_mem 2)
      (sample_mem 3) (sample_pp 4 1 8) []).2 IndexType.int32 4 true
      (by decide) (by decide) (by decide),
   (C7_instantiation_choices (sample_build false) (sample_mem 0) (sample_mem 1) (sample_mem 2)
      (sample_mem 3) (sample_pp 4 1 4) []).2 IndexType.int32 4 false
      (by decide) (by decide) (by decide),
   (C7_instantiation_choices (sample_build false) (sample_mem 0) (sample_mem 1) (sample_mem 2)
      (sample_mem 3) (sample_pp 4 1 6) []).2 IndexType.int32 2 true
      (by decide) (by decide) (by decide),
   (C7_instantiation_choices (sample_build false) (sample_mem 0) (sample_mem 1) (sample_mem 2)
      (sample_mem 3) (sample_pp 4 1 2) []).2 IndexType.int32 2 false
      (by decide) (by decide) (by decide),
   (C7_instantiation_choices (sample_build false) (sample_mem 0) (sample_mem 1) (sample_mem 2)
      (sample_mem 3) (sample_pp 4 1 3) []).2 IndexType.int32 1 true
      (by decide) (by decide) (by decide),
   (C7_instantiation_choices (sample_build false) (sample_mem 0) (sample_mem 1) (sample_mem 2)
      (sample_mem 3) (sample_pp 4 1 1) []).2 IndexType.int32 1 false
      (by decide) (by decide) (by decide),
   (C7_instantiation_choices (sample_build true) (sample_mem 0) (sample_mem 1) (sample_mem 2)
      (sample_mem 3) (sample_pp 2147483648 1 8) []).2 IndexType.int64 4 true
      (by decide) (by decide) (by decide),
   (C7_instantiation_choices (sample_build true) (sample_mem 0) (sample_mem 1) (sample_mem 2)
      (sample_mem 3) (sample_pp 2147483648 1 4) []).2 IndexType.int64 4 false
      (by decide) (by decide) (by decide),
   (C7_instantiation_choices (sample_build true) (sample_mem 0) (sample_mem 1) (sample_mem 2)
      (sample_mem 3) (sample_pp 2147483648 1 6) []).2 IndexType.int64 2 true
      (by decide) (by decide) (by decide),
   (C7_instantiation_choices (sample_build true) (sample_mem 0) (sample_mem 1) (sample_mem 2)
      (sample_mem 3) (sample_pp 2147483648 1 2) []).2 IndexType.int64 2 false
      (by decide) (by decide) (by decide),
   (C7_instantiation_choices (sample_build true) (sample_mem 0) (sample_mem 1) (sample_mem 2)
      (sample_mem 3) (sample_pp 2147483648 1 3) []).2 IndexType.int64 1 true
      (by decide) (by decide) (by decide),
   (C7_instantiation_choices (sample_build true) (sample_mem 0) (sample_mem 1) (sample_mem 2)
      (sample_mem 3) (sample_pp 2147483648 1 1) []).2 IndexType.int64 1 false
      (by decide) (by decide) (by decide)⟩

/-! ### C8: no parameter validation in the launch -/

/-- C8, the claim fails: for a shape with zero-sized windows, negative strides and an output of
0 elements, `launch_pooling` on an empty queue returns OK, not InvalidParameters, and has
enqueued one command group (with a range of 0 threads). -/
theorem C8_invalid_parameters_counterexample :
    invalid_params (sample_build false) invalid_pp = true ∧
    (launch_pooling (sample_build false) (sample_mem 0) (sample_mem 1) (sample_mem 2)
      (sample_mem 3) invalid_pp []).1.status = StatusCode.OK ∧
    (launch_pooling (sample_build false) (sample_mem 0) (sample_mem 1) (sample_mem 2)
      (sample_mem 3) invalid_pp []).2.map CommandGroup.ranges = [[0]] := by
  decide

/-- C8, amended. `launch_pooling` does not validate its parameters: for every invalid
PoolingParams it never returns InvalidParameters, and it goes on to the launch as for any other
input, returning OK with one command group enqueued whenever the output size is at most 2^31-1
or the build has 64-bit indices; otherwise it returns IndexExceeded and enqueues nothing. -/
theorem C8_invalid_parameters_not_detected (b : PoolingBuild) (m1 m2 m3 m4 : MemObject)
    (pp : PoolingParams) (queue : Queue) (_hinv : invalid_params b pp = true) :
    (launch_pooling b m1 m2 m3 m4 pp queue).1.status ≠ StatusCode.InvalidParameters ∧
    (((b.get_sizes pp).output_size ≤ 2147483647 ∨ b.snn_use_int64 = true) →
      (launch_pooling b m1 m2 m3 m4 pp queue).1.status = StatusCode.OK ∧
      (launch_pooling b m1 m2 m3 m4 pp queue).2.length = queue.length + 1) ∧
    (¬ ((b.get_sizes pp).output_size ≤ 2147483647 ∨ b.snn_use_int64 = true) →
      (launch_pooling b m1 m2 m3 m4 pp queue).1.status = StatusCode.IndexExceeded ∧
      (launch_pooling b m1 m2 m3 m4 pp queue).2 = queue) := by
  have hmax : INT32_MAX = 2147483647 := rfl
  rw [launch_pooling_eq, hmax]
  by_cases h : 2147483647 < (b.get_sizes pp).output_size ∧ b.snn_use_int64 = false
  · rw [if_pos h]
    refine ⟨by simp, fun hc => ?_, fun _ => ⟨rfl, rfl⟩⟩
    rcases hc with hc | hc
    · omega
    · simp [hc] at h
  · rw [if_neg h]
    refine ⟨by simp, fun _ => ⟨rfl, by simp⟩, fun hc => ?_⟩
    exfalso
    apply h
    constructor
    · omega
    · cases h64 : b.snn_use_int64
      · rfl
      · exact absurd (Or.inr h64) hc

/-- Witness for C8 amended, on the invalid shape of the counterexample. -/
theorem C8_invalid_parameters_not_detected_witness :
    (launch_pooling (sample_build false) (sample_mem 0) (sample_mem 1) (sample_mem 2)
      (sample_mem 3) invalid_pp []).1.status = StatusCode.OK ∧
    (launch_pooling (sample_build false) (sample_mem 0) (sample_mem 1) (sample_mem 2)
      (sample_mem 3) invalid_pp []).2.length = ([] : Queue).length + 1 :=
  (C8_invalid_parameters_not_detected (sample_build false) (sample_mem 0) (sample_mem 1)
    (sample_mem 2) (sample_mem 3) invalid_pp [] (by decide)).2.1 (Or.inl (by decide))

/-! ### C9: the filter transform submission -/

/-- C9. With the queue an explicit list: for every filter view, transform view, Conv2DParams
and TileInfo, `queue_filter_transform` appends exactly one command group; the group holds a
read accessor on the filter view and a write accessor on the transform view, in that order and
nothing else, and one parallel region, over `get_thread_range<ConvType>(params, tile_info)`,
running `ExtractFilterTiles` built from the parameters, the tile info and the two accessors;
the returned status is always OK, with the event of that submission. -/
theorem C9_filter_transform_submission (index : IndexType) (convType : ConvType)
    (m n r s : Nat) (filter_mem transform_mem : MemObject) (params : Conv2DParams)
    (tile_info : TileInfo) (queue : Queue) :
    ∃ cg,
      (queue_filter_transform index convType m n r s filter_mem transform_mem params
        tile_info queue).2 = queue ++ [cg] ∧
      cg.accessors = [{ mem := filter_mem, mode := AccessMode.read },
        { mem := transform_mem, mode := AccessMode.write }] ∧
      cg.regions = [(get_thread_range convType params tile_info,
        KernelFunctor.ExtractFilterTiles index m n r s convType params tile_info
          { mem := filter_mem, mode := AccessMode.read }
          { mem := transform_mem, mode := AccessMode.write })] ∧
      (queue_filter_transform index convType m n r s filter_mem transform_mem params
        tile_info queue).1 = { event := some queue.length, status := StatusCode.OK } :=
  ⟨_, rfl, rfl, rfl, rfl⟩

/-! ### C10: only the output-backprop buffer can change -/

/-- A store leaves alone every buffer that no write accessor of the command group views. -/
theorem apply_store_frame {α : Type} (accs : List Accessor) (buf : Nat)
    (hacc : ∀ a, a ∈ accs → a.mode = AccessMode.write → a.mem.buffer ≠ buf)
    (mem : DeviceMemory α) (st : Store α) :
    apply_store accs mem st buf = mem buf := by
  unfold apply_store
  cases hget : accs.get? st.accessor with
  | none => rfl
  | some a =>
    dsimp only
    split
    · next hw =>
      have hne : buf ≠ a.mem.buffer := fun e => hacc a (List.get?_mem hget) hw.1 e.symm
      exact Function.update_noteq hne _ _
    · rfl

/-- Any sequence of stores leaves such a buffer alone. -/
theorem apply_stores_frame {α : Type} (accs : List Accessor) (buf : Nat)
    (hacc : ∀ a, a ∈ accs → a.mode = AccessMode.write → a.mem.buffer ≠ buf)
    (stores : List (Store α)) (mem : DeviceMemory α) :
    stores.foldl (apply_store accs) mem buf = mem buf := by
  induction stores generalizing mem with
  | nil => rfl
  | cons st rest ih => rw [List.foldl_cons, ih, apply_store_frame accs buf hacc]

/-- A whole command group leaves such a buffer alone, whatever the kernel body does. -/
theorem run_group_frame {α : Type} (body : KernelBody α) (cg : CommandGroup) (buf : Nat)
    (hacc : ∀ a, a ∈ cg.accessors → a.mode = AccessMode.write → a.mem.buffer ≠ buf)
    (mem : DeviceMemory α) :
    run_group body mem cg buf = mem buf := by
  have hregion : ∀ (region : Nat × KernelFunctor) (m : DeviceMemory α),
      run_region body cg.accessors m region buf = m buf := by
    intro region m
    unfold run_region
    generalize List.range region.1 = tids
    induction tids generalizing m with
    | nil => rfl
    | cons tid rest ih => rw [List.foldl_cons, ih, apply_stores_frame cg.accessors buf hacc]
  unfold run_group
  generalize cg.regions = regions
  induction regions generalizing mem with
  | nil => rfl
  | cons region rest ih => rw [List.foldl_cons, ih, hregion]

/-- C10. Every command group the max-gradient pooling launch submits binds the forward input,
the forward output and the incoming gradient with read accessors and the output-backprop view,
last and alone, with a write accessor.  So, running what was launched with any kernel body on
any device memory, every buffer other than the output-backprop buffer keeps its contents. -/
theorem C10_only_output_backprop_written {α : Type} (b : PoolingBuild)
    (m1 m2 m3 m4 : MemObject) (pp : PoolingParams) (queue : Queue)
    (body : KernelBody α) (mem : DeviceMemory α) (buf : Nat) (hbuf : buf ≠ m4.buffer) :
    (∀ cg, cg ∈ launched b m1 m2 m3 m4 pp queue →
      cg.accessors = [{ mem := m1, mode := AccessMode.read },
        { mem := m2, mode := AccessMode.read }, { mem := m3, mode := AccessMode.read },
        { mem := m4, mode := AccessMode.write }]) ∧
    run_groups body mem (launched b m1 m2 m3 m4 pp queue) buf = mem buf := by
  have hacc : ∀ cg, cg ∈ launched b m1 m2 m3 m4 pp queue →
      cg.accessors = [{ mem := m1, mode := AccessMode.read },
        { mem := m2, mode := AccessMode.read }, { mem := m3, mode := AccessMode.read },
        { mem := m4, mode := AccessMode.write }] := by
    intro cg hcg
    rw [launched_eq] at hcg
    split at hcg
    · simp at hcg
    · rw [List.mem_singleton] at hcg
      subst hcg
      rfl
  refine ⟨hacc, ?_⟩
  unfold run_groups
  generalize launched b m1 m2 m3 m4 pp queue = groups at hacc
  induction groups generalizing mem with
  | nil => rfl
  | cons cg rest ih =>
    rw [List.foldl_cons, ih _ (fun c hc => hacc c (List.mem_cons_of_mem _ hc))]
    apply run_group_frame
    intro a ha hw
    rw [hacc cg (List.mem_cons_self _ _)] at ha
    simp only [List.mem_cons, List.mem_singleton, List.mem_nil_iff, or_false] at ha
    rcases ha with e | e | e | e <;> subst e
    · simp at hw
    · simp at hw
    · simp at hw
    · exact fun e => hbuf e.symm

/-- Witness for C10: on four buffers, with a kernel body that tries to store through all four
accessors, the forward input buffer is as before after the launch has run. -/
theorem C10_only_output_backprop_written_witness :
    (∀ cg, cg ∈ launched (sample_build false) (sample_mem 0) (sample_mem 1) (sample_mem 2)
        (sample_mem 3) (sample_pp 2 2 1) [] →
      cg.accessors = [{ mem := sample_mem 0, mode := AccessMode.read },
        { mem := sample_mem 1, mode := AccessMode.read },
        { mem := sample_mem 2, mode := AccessMode.read },
        { mem := sample_mem 3, mode := AccessMode.write }]) ∧
    run_groups sample_body sample_memory (launched (sample_build false) (sample_mem 0)
      (sample_mem 1) (sample_mem 2) (sample_mem 3) (sample_pp 2 2 1) []) 0 = sample_memory 0 :=
  C10_only_output_backprop_written (sample_build false) (sample_mem 0) (sample_mem 1)
    (sample_mem 2) (sample_mem 3) (sample_pp 2 2 1) [] sample_body sample_memory 0
    (by decide)

/-- The memory model does perform stores through the write accessor: in the run of the witness
above the output-backprop buffer is overwritten by the sample body while the three read-only
buffers keep their contents. -/
theorem sample_run_writes_output_backprop :
    (List.range 4).map (run_groups sample_body sample_memory
      (launched (sample_build false) (sample_mem 0) (sample_mem 1) (sample_mem 2)
        (sample_mem 3) (sample_pp 2 2 1) [])) =
      [[1, 5, 2, 3], [5], [7], [9, 9, 9, 9]] := by
  decide

/-! ### C11: submitted thread count and the 32-bit index range -/

/-- C11. For every PoolingParams on which `launch_pooling` submits a kernel, the submitted
thread count is `output_size / w` rounded down, with `output_size = get_sizes(pp).output_size`
and `w` the vector width chosen by the 4, 2, 1 cascade.  Whenever the kernel is instantiated
with `int32_t`, the thread count and the thread count times `w` are at most 2^31-1, and so are
every thread id of the range and that id times `w`. -/
theorem C11_thread_count_fits_index (b : PoolingBuild) (m1 m2 m3 m4 : MemObject)
    (pp : PoolingParams) (queue : Queue) (cg : CommandGroup)
    (hcg : cg ∈ launched b m1 m2 m3 m4 pp queue) :
    ∃ i w f, cg.pooling_instantiations = [(i, w, f)] ∧
      (w = 4 ∧ b.can_vectorize pp 4 = true ∨
       w = 2 ∧ b.can_vectorize pp 4 = false ∧ b.can_vectorize pp 2 = true ∨
       w = 1 ∧ b.can_vectorize pp 4 = false ∧ b.can_vectorize pp 2 = false) ∧
      cg.ranges = [(b.get_sizes pp).output_size / w] ∧
      (i = IndexType.int32 →
        (b.get_sizes pp).output_size / w ≤ 2147483647 ∧
        (b.get_sizes pp).output_size / w * w ≤ 2147483647 ∧
        ∀ id, id < (b.get_sizes pp).output_size / w →
          id ≤ 2147483647 ∧ id * w ≤ 2147483647) := by
  have hmax : INT32_MAX = 2147483647 := rfl
  have hw : chosen_width b pp = 4 ∧ b.can_vectorize pp 4 = true ∨
      chosen_width b pp = 2 ∧ b.can_vectorize pp 4 = false ∧ b.can_vectorize pp 2 = true ∨
      chosen_width b pp = 1 ∧ b.can_vectorize pp 4 = false ∧ b.can_vectorize pp 2 = false := by
    unfold chosen_width
    cases h4 : b.can_vectorize pp 4 <;> cases h2 : b.can_vectorize pp 2 <;> simp
  rw [launched_eq] at hcg
  split at hcg
  · simp at hcg
  · rw [List.mem_singleton] at hcg
    subst hcg
    refine ⟨chosen_index (b.get_sizes pp).output_size, chosen_width b pp,
      b.can_use_fastdiv pp (chosen_width b pp),
      by simp [pooling_group, CommandGroup.pooling_instantiations], hw,
      by simp [pooling_group, CommandGroup.ranges], fun hi => ?_⟩
    have hout : (b.get_sizes pp).output_size ≤ 2147483647 := by
      unfold chosen_index at hi
      rw [hmax] at hi
      split at hi
      · cases hi
      · omega
    rcases chosen_width_cases b pp with h | h | h <;> rw [h] <;>
      refine ⟨by omega, by omega, fun id hid => ⟨by omega, by omega⟩⟩

/-- Witness for C11 at the boundary: an output of exactly 2^31-1 elements is launched with
`int32_t` at width 1 over 2^31-1 threads. -/
theorem C11_thread_count_fits_index_witness :
    ∃ i w f, (pooling_group IndexType.int32 1 false (sample_mem 0) (sample_mem 1)
        (sample_mem 2) (sample_mem 3) (sample_pp 2147483647 1 1)
        2147483647).pooling_instantiations = [(i, w, f)] ∧
      (w = 4 ∧ (sample_build false).can_vectorize (sample_pp 2147483647 1 1) 4 = true ∨
       w = 2 ∧ (sample_build false).can_vectorize (sample_pp 2147483647 1 1) 4 = false ∧
         (sample_build false).can_vectorize (sample_pp 2147483647 1 1) 2 = true ∨
       w = 1 ∧ (sample_build false).can_vectorize (sample_pp 2147483647 1 1) 4 = false ∧
         (sample_build false).can_vectorize (sample_pp 2147483647 1 1) 2 = false) ∧
      (pooling_group IndexType.int32 1 false (sample_mem 0) (sample_mem 1)
        (sample_mem 2) (sample_mem 3) (sample_pp 2147483647 1 1) 2147483647).ranges =
        [((sample_build false).get_sizes (sample_pp 2147483647 1 1)).output_size / w] ∧
      (i = IndexType.int32 →
        ((sample_build false).get_sizes (sample_pp 2147483647 1 1)).output_size / w
          ≤ 2147483647 ∧
        ((sample_build false).get_sizes (sample_pp 2147483647 1 1)).output_size / w * w
          ≤ 2147483647 ∧
        ∀ id, id < ((sample_build false).get_sizes (sample_pp 2147483647 1 1)).output_size / w →
          id ≤ 2147483647 ∧ id * w ≤ 2147483647) :=
  C11_thread_count_fits_index (sample_build false) (sample_mem 0) (sample_mem 1)
    (sample_mem 2) (sample_mem 3) (sample_pp 2147483647 1 1) []
    (pooling_group IndexType.int32 1 false (sample_mem 0) (sample_mem 1) (sample_mem 2)
      (sample_mem 3) (sample_pp 2147483647 1 1) 2147483647) (by decide)

end sycldnn
